import Mathlib

/-!
Shallow embedding of the relatient-prototype REST API core: three in-memory
stores (patients, providers, appointments) with list/get/create/update/delete
handlers, translated from the Express route handlers in
src/unnamed/part_001 (appointments and patients routers) and
src/api/routes/providers.js (providers router).

Request bodies are modelled as records of `Option String` fields: `none`
means the key is absent from the JSON body, `some s` means the key is
present with string value `s`.  The JavaScript truthiness test `!field`
used by the creation handlers rejects both an absent key and an empty
string, which `blankS` captures.  The update handlers test
`field !== undefined`, which is `Option.isSome`.
-/

namespace Relatient

/-- JS falsiness of an optional string field: absent, or the empty string. -/
def blankS : Option String → Bool
  | none => true
  | some s => s.isEmpty

/-- The creation handlers store `field || null`: a missing or empty optional
field becomes `null` (here `none`). -/
def orNull : Option String → Option String
  | none => none
  | some s => if s.isEmpty then none else some s

/-- Error codes appearing in the handlers' JSON error bodies. -/
inductive ErrCode where
  | INVALID_INPUT
  | PATIENT_NOT_FOUND
  | PROVIDER_NOT_FOUND
  | APPOINTMENT_NOT_FOUND
deriving DecidableEq

/-- An HTTP response from a single-resource handler: `ok status body` or
`err status code`. -/
inductive Resp (α : Type) where
  | ok : Nat → α → Resp α
  | err : Nat → ErrCode → Resp α
deriving DecidableEq

/-- Whether a response is an error response. -/
def Resp.isErr : Resp α → Bool
  | .err _ _ => true
  | _ => false

/-- `array.splice(array.findIndex(f), 1)`: remove the first element
satisfying `f`, or `none` when no element does. -/
def removeFirst (f : α → Bool) : List α → Option (List α)
  | [] => none
  | x :: xs =>
    if f x then some xs
    else Option.map (fun ys => x :: ys) (removeFirst f xs)

/-- `array[array.findIndex(f)] = g(array[...])`: replace the first element
satisfying `f` by its image under `g`, returning the new element and the
new list, or `none` when no element matches. -/
def updateFirst (g : α → α) (f : α → Bool) : List α → Option (α × List α)
  | [] => none
  | x :: xs =>
    if f x then some (g x, g x :: xs)
    else
      match updateFirst g f xs with
      | none => none
      | some (r, ys) => some (r, x :: ys)

/-- A Patient record as stored; `contactNumber`/`email` are nullable. -/
structure Patient where
  id : String
  firstName : String
  lastName : String
  dateOfBirth : String
  contactNumber : Option String
  email : Option String
deriving DecidableEq

/-- A Provider record as stored. -/
structure Provider where
  id : String
  firstName : String
  lastName : String
  specialty : String
  contactNumber : Option String
  email : Option String
deriving DecidableEq

/-- An Appointment record as stored. -/
structure Appointment where
  id : String
  patientId : String
  providerId : String
  date : String
  type : String
  status : String
deriving DecidableEq

/-- Body of POST /patients. -/
structure PatientCreateBody where
  firstName : Option String
  lastName : Option String
  dateOfBirth : Option String
  contactNumber : Option String
  email : Option String
deriving DecidableEq

/-- Body of PUT /patients/:id — the spread `{...patient, ...req.body}`
copies every key of the body, including `id`. -/
structure PatientUpdateBody where
  id : Option String
  firstName : Option String
  lastName : Option String
  dateOfBirth : Option String
  contactNumber : Option String
  email : Option String
deriving DecidableEq

/-- The empty JSON body `{}` for a patient update. -/
def emptyPatientBody : PatientUpdateBody :=
  ⟨none, none, none, none, none, none⟩

/-- Body of POST /providers. -/
structure ProviderCreateBody where
  firstName : Option String
  lastName : Option String
  specialty : Option String
  contactNumber : Option String
  email : Option String
deriving DecidableEq

/-- Body of PUT /providers/:id. -/
structure ProviderUpdateBody where
  id : Option String
  firstName : Option String
  lastName : Option String
  specialty : Option String
  contactNumber : Option String
  email : Option String
deriving DecidableEq

/-- The empty JSON body `{}` for a provider update. -/
def emptyProviderBody : ProviderUpdateBody :=
  ⟨none, none, none, none, none, none⟩

/-- Body of POST /appointments. -/
structure ApptCreateBody where
  patientId : Option String
  providerId : Option String
  date : Option String
  type : Option String
deriving DecidableEq

/-- Body of PUT /appointments/:id. -/
structure ApptUpdateBody where
  id : Option String
  patientId : Option String
  providerId : Option String
  date : Option String
  type : Option String
  status : Option String
deriving DecidableEq

/-- The empty JSON body `{}` for an appointment update. -/
def emptyApptBody : ApptUpdateBody :=
  ⟨none, none, none, none, none, none⟩

/-- GET /patients/:id. -/
def getPatient (store : List Patient) (pid : String) : Resp Patient :=
  match store.find? (fun p => p.id == pid) with
  | some p => .ok 200 p
  | none => .err 404 .PATIENT_NOT_FOUND

/-- POST /patients: requires truthy firstName, lastName, dateOfBirth;
assigns id `"pat" + (length + 1)`; stores `contactNumber || null` and
`email || null`; pushes the record. -/
def createPatient (store : List Patient) (body : PatientCreateBody) :
    Resp Patient × List Patient :=
  if blankS body.firstName || blankS body.lastName || blankS body.dateOfBirth then
    (.err 400 .INVALID_INPUT, store)
  else
    let newPatient : Patient :=
      { id := "pat" ++ toString (store.length + 1)
        firstName := body.firstName.getD ""
        lastName := body.lastName.getD ""
        dateOfBirth := body.dateOfBirth.getD ""
        contactNumber := orNull body.contactNumber
        email := orNull body.email }
    (.ok 201 newPatient, store ++ [newPatient])

/-- The spread `{...patient, ...req.body}`: every key present in the body
overwrites the stored field, keys absent from the body are kept. -/
def mergePatient (body : PatientUpdateBody) (p : Patient) : Patient :=
  { id := body.id.getD p.id
    firstName := body.firstName.getD p.firstName
    lastName := body.lastName.getD p.lastName
    dateOfBirth := body.dateOfBirth.getD p.dateOfBirth
    contactNumber :=
      match body.contactNumber with
      | some s => some s
      | none => p.contactNumber
    email :=
      match body.email with
      | some s => some s
      | none => p.email }

/-- PUT /patients/:id: 404 when the id matches no record, otherwise
replaces the first matching record by the spread merge and returns it. -/
def updatePatient (store : List Patient) (pid : String)
    (body : PatientUpdateBody) : Resp Patient × List Patient :=
  match updateFirst (mergePatient body) (fun p => p.id == pid) store with
  | none => (.err 404 .PATIENT_NOT_FOUND, store)
  | some (r, ys) => (.ok 200 r, ys)

/-- DELETE /patients/:id: 404 when the id matches no record, otherwise
splices out the first matching record and answers 204. -/
def deletePatient (store : List Patient) (pid : String) :
    Resp Unit × List Patient :=
  match removeFirst (fun p => p.id == pid) store with
  | none => (.err 404 .PATIENT_NOT_FOUND, store)
  | some ys => (.ok 204 (), ys)

/-- GET /providers/:id. -/
def getProvider (store : List Provider) (pid : String) : Resp Provider :=
  match store.find? (fun p => p.id == pid) with
  | some p => .ok 200 p
  | none => .err 404 .PROVIDER_NOT_FOUND

/-- POST /providers: requires truthy firstName, lastName, specialty;
assigns id `"prov" + (length + 1)`. -/
def createProvider (store : List Provider) (body : ProviderCreateBody) :
    Resp Provider × List Provider :=
  if blankS body.firstName || blankS body.lastName || blankS body.specialty then
    (.err 400 .INVALID_INPUT, store)
  else
    let newProvider : Provider :=
      { id := "prov" ++ toString (store.length + 1)
        firstName := body.firstName.getD ""
        lastName := body.lastName.getD ""
        specialty := body.specialty.getD ""
        contactNumber := orNull body.contactNumber
        email := orNull body.email }
    (.ok 201 newProvider, store ++ [newProvider])

/-- The spread `{...provider, ...req.body}`. -/
def mergeProvider (body : ProviderUpdateBody) (p : Provider) : Provider :=
  { id := body.id.getD p.id
    firstName := body.firstName.getD p.firstName
    lastName := body.lastName.getD p.lastName
    specialty := body.specialty.getD p.specialty
    contactNumber :=
      match body.contactNumber with
      | some s => some s
      | none => p.contactNumber
    email :=
      match body.email with
      | some s => some s
      | none => p.email }

/-- PUT /providers/:id. -/
def updateProvider (store : List Provider) (pid : String)
    (body : ProviderUpdateBody) : Resp Provider × List Provider :=
  match updateFirst (mergeProvider body) (fun p => p.id == pid) store with
  | none => (.err 404 .PROVIDER_NOT_FOUND, store)
  | some (r, ys) => (.ok 200 r, ys)

/-- DELETE /providers/:id. -/
def deleteProvider (store : List Provider) (pid : String) :
    Resp Unit × List Provider :=
  match removeFirst (fun p => p.id == pid) store with
  | none => (.err 404 .PROVIDER_NOT_FOUND, store)
  | some ys => (.ok 204 (), ys)

/-- GET /appointments/:id. -/
def getAppointment (store : List Appointment) (aid : String) :
    Resp Appointment :=
  match store.find? (fun a => a.id == aid) with
  | some a => .ok 200 a
  | none => .err 404 .APPOINTMENT_NOT_FOUND

/-- POST /appointments: requires truthy patientId, providerId, date, type;
then `patients.some(p => p.id === patientId)`, then the same for the
provider; on success assigns id `"app" + (length + 1)` and status
`"scheduled"` and pushes the record. -/
def createAppointment (pats : List Patient) (provs : List Provider)
    (appts : List Appointment) (body : ApptCreateBody) :
    Resp Appointment × List Appointment :=
  if blankS body.patientId || blankS body.providerId ||
      blankS body.date || blankS body.type then
    (.err 400 .INVALID_INPUT, appts)
  else if !(pats.any (fun p => p.id == body.patientId.getD "")) then
    (.err 400 .PATIENT_NOT_FOUND, appts)
  else if !(provs.any (fun pr => pr.id == body.providerId.getD "")) then
    (.err 400 .PROVIDER_NOT_FOUND, appts)
  else
    let newAppointment : Appointment :=
      { id := "app" ++ toString (appts.length + 1)
        patientId := body.patientId.getD ""
        providerId := body.providerId.getD ""
        date := body.date.getD ""
        type := body.type.getD ""
        status := "scheduled" }
    (.ok 201 newAppointment, appts ++ [newAppointment])

/-- `patientId !== undefined` guard of PUT /appointments/:id: an omitted
patientId passes; a supplied one (empty string included) must match some
patient. -/
def patientRefOK (pats : List Patient) : Option String → Bool
  | none => true
  | some q => pats.any (fun p => p.id == q)

/-- `providerId !== undefined` guard of PUT /appointments/:id. -/
def providerRefOK (provs : List Provider) : Option String → Bool
  | none => true
  | some q => provs.any (fun pr => pr.id == q)

/-- The spread `{...appointment, ...req.body}`. -/
def mergeAppointment (body : ApptUpdateBody) (a : Appointment) : Appointment :=
  { id := body.id.getD a.id
    patientId := body.patientId.getD a.patientId
    providerId := body.providerId.getD a.providerId
    date := body.date.getD a.date
    type := body.type.getD a.type
    status := body.status.getD a.status }

/-- PUT /appointments/:id: 404 when the id matches no record; a supplied
patientId (resp. providerId) must resolve, else 400 PATIENT_NOT_FOUND
(resp. PROVIDER_NOT_FOUND); otherwise the first matching record is
replaced by the spread merge, with date, type and status accepted
unvalidated. -/
def updateAppointment (pats : List Patient) (provs : List Provider)
    (appts : List Appointment) (aid : String) (body : ApptUpdateBody) :
    Resp Appointment × List Appointment :=
  match updateFirst (mergeAppointment body) (fun a => a.id == aid) appts with
  | none => (.err 404 .APPOINTMENT_NOT_FOUND, appts)
  | some (r, ys) =>
    if patientRefOK pats body.patientId then
      if providerRefOK provs body.providerId then (.ok 200 r, ys)
      else (.err 400 .PROVIDER_NOT_FOUND, appts)
    else (.err 400 .PATIENT_NOT_FOUND, appts)

/-- DELETE /appointments/:id. -/
def deleteAppointment (store : List Appointment) (aid : String) :
    Resp Unit × List Appointment :=
  match removeFirst (fun a => a.id == aid) store with
  | none => (.err 404 .APPOINTMENT_NOT_FOUND, store)
  | some ys => (.ok 204 (), ys)

/-- The seeded patients array from the patients router. -/
def seededPatients : List Patient :=
  [ { id := "pat1", firstName := "Frank", lastName := "White",
      dateOfBirth := "1985-03-20", contactNumber := some "555-555-555",
      email := some "frank@aol.com" },
    { id := "pat2", firstName := "Bob", lastName := "Johnson",
      dateOfBirth := "1992-11-05", contactNumber := some "555-333-4444",
      email := some "bob@aol.com" } ]

/-- The seeded providers array from the providers router. -/
def seededProviders : List Provider :=
  [ { id := "prov1", firstName := "Dr. Emily", lastName := "White",
      specialty := "General Practice", contactNumber := some "555-777-8888",
      email := some "emily.w@example.com" },
    { id := "prov2", firstName := "Dr. Michael", lastName := "Green",
      specialty := "Pediatrics", contactNumber := some "555-999-0000",
      email := some "michael.g@example.com" } ]

/-- The seeded appointments array from the appointments router. -/
def seededAppointments : List Appointment :=
  [ { id := "app1", patientId := "pat1", providerId := "prov1",
      date := "2025-06-15T10:00:00Z", type := "Check-up",
      status := "scheduled" },
    { id := "app2", patientId := "pat2", providerId := "prov2",
      date := "2025-06-16T14:30:00Z", type := "Follow-up",
      status := "scheduled" } ]

/-- The three module-level arrays together. -/
structure SysState where
  patients : List Patient
  providers : List Provider
  appointments : List Appointment
deriving DecidableEq

/-- The seeded initial state of the process. -/
def seededSys : SysState :=
  { patients := seededPatients
    providers := seededProviders
    appointments := seededAppointments }

/-- One HTTP request against the API (path parameters and parsed body). -/
inductive Op where
  | patientList
  | patientGet (id : String)
  | patientCreate (body : PatientCreateBody)
  | patientUpdate (id : String) (body : PatientUpdateBody)
  | patientDelete (id : String)
  | providerList
  | providerGet (id : String)
  | providerCreate (body : ProviderCreateBody)
  | providerUpdate (id : String) (body : ProviderUpdateBody)
  | providerDelete (id : String)
  | apptList
  | apptGet (id : String)
  | apptCreate (body : ApptCreateBody)
  | apptUpdate (id : String) (body : ApptUpdateBody)
  | apptDelete (id : String)

/-- The response of any handler, with the record payloads united. -/
inductive SysResp where
  | okPatients : List Patient → SysResp
  | okProviders : List Provider → SysResp
  | okAppointments : List Appointment → SysResp
  | okPatient : Nat → Patient → SysResp
  | okProvider : Nat → Provider → SysResp
  | okAppointment : Nat → Appointment → SysResp
  | okEmpty : Nat → SysResp
  | err : Nat → ErrCode → SysResp
deriving DecidableEq

/-- Whether a system response is an error response. -/
def SysResp.isErr : SysResp → Bool
  | .err _ _ => true
  | _ => false

/-- Lift a patient-handler response. -/
def respP : Resp Patient → SysResp
  | .ok s p => .okPatient s p
  | .err s c => .err s c

/-- Lift a provider-handler response. -/
def respV : Resp Provider → SysResp
  | .ok s p => .okProvider s p
  | .err s c => .err s c

/-- Lift an appointment-handler response. -/
def respA : Resp Appointment → SysResp
  | .ok s a => .okAppointment s a
  | .err s c => .err s c

/-- Lift a delete-handler response (body-less 204 on success). -/
def respD : Resp Unit → SysResp
  | .ok s _ => .okEmpty s
  | .err s c => .err s c

/-- Dispatch one request against the three stores, giving the response and
the state after the handler ran. -/
def applyOp (st : SysState) : Op → SysResp × SysState
  | .patientList => (.okPatients st.patients, st)
  | .patientGet i => (respP (getPatient st.patients i), st)
  | .patientCreate body =>
    let r := createPatient st.patients body
    (respP r.1, { st with patients := r.2 })
  | .patientUpdate i body =>
    let r := updatePatient st.patients i body
    (respP r.1, { st with patients := r.2 })
  | .patientDelete i =>
    let r := deletePatient st.patients i
    (respD r.1, { st with patients := r.2 })
  | .providerList => (.okProviders st.providers, st)
  | .providerGet i => (respV (getProvider st.providers i), st)
  | .providerCreate body =>
    let r := createProvider st.providers body
    (respV r.1, { st with providers := r.2 })
  | .providerUpdate i body =>
    let r := updateProvider st.providers i body
    (respV r.1, { st with providers := r.2 })
  | .providerDelete i =>
    let r := deleteProvider st.providers i
    (respD r.1, { st with providers := r.2 })
  | .apptList => (.okAppointments st.appointments, st)
  | .apptGet i => (respA (getAppointment st.appointments i), st)
  | .apptCreate body =>
    let r := createAppointment st.patients st.providers st.appointments body
    (respA r.1, { st with appointments := r.2 })
  | .apptUpdate i body =>
    let r := updateAppointment st.patients st.providers st.appointments i body
    (respA r.1, { st with appointments := r.2 })
  | .apptDelete i =>
    let r := deleteAppointment st.appointments i
    (respD r.1, { st with appointments := r.2 })

/-! Generic lemmas about `updateFirst` and `removeFirst`. -/

theorem updateFirst_append (g : α → α) (f : α → Bool) (b : List α) (x : α)
    (t : List α) (hb : ∀ y ∈ b, f y = false) (hx : f x = true) :
    updateFirst g f (b ++ x :: t) = some (g x, b ++ g x :: t) := by
  induction b with
  | nil => simp [updateFirst, hx]
  | cons y ys ih =>
    have hy : f y = false := hb y (List.mem_cons_self y ys)
    have ihy := ih (fun z hz => hb z (List.mem_cons_of_mem y hz))
    simp [updateFirst, hy, ihy]

theorem removeFirst_append (f : α → Bool) (b : List α) (x : α)
    (t : List α) (hb : ∀ y ∈ b, f y = false) (hx : f x = true) :
    removeFirst f (b ++ x :: t) = some (b ++ t) := by
  induction b with
  | nil => simp [removeFirst, hx]
  | cons y ys ih =>
    have hy : f y = false := hb y (List.mem_cons_self y ys)
    have ihy := ih (fun z hz => hb z (List.mem_cons_of_mem y hz))
    simp [removeFirst, hy, ihy]

theorem removeFirst_eq_none_iff (f : α → Bool) (l : List α) :
    removeFirst f l = none ↔ l.countP f = 0 := by
  induction l with
  | nil => simp [removeFirst]
  | cons x xs ih =>
    by_cases hx : f x = true
    · simp [removeFirst, hx, List.countP_cons]
    · simp only [Bool.not_eq_true] at hx
      cases h : removeFirst f xs with
      | none =>
        simp [removeFirst, hx, List.countP_cons, h, ih.mp h]
      | some ys =>
        have : xs.countP f ≠ 0 := fun hc => by
          rw [← ih] at hc; rw [hc] at h; cases h
        simp [removeFirst, hx, List.countP_cons, h, this]

theorem removeFirst_countP (f : α → Bool) :
    ∀ (l l' : List α), removeFirst f l = some l' →
      l.countP f = l'.countP f + 1 := by
  intro l
  induction l with
  | nil => intro l' h; cases h
  | cons x xs ih =>
    intro l' h
    by_cases hx : f x = true
    · simp [removeFirst, hx] at h
      subst h
      simp [List.countP_cons, hx]
    · simp only [Bool.not_eq_true] at hx
      simp [removeFirst, hx] at h
      obtain ⟨ys, hys, rfl⟩ := h
      simp [List.countP_cons, hx, ih ys hys]

/-! Error responses leave the acting store untouched: per-handler frame
lemmas, combined below into the atomicity theorem. -/

theorem createPatient_frame (s : List Patient) (b : PatientCreateBody)
    (h : (createPatient s b).1.isErr = true) : (createPatient s b).2 = s := by
  unfold createPatient at h ⊢
  split at h <;> simp_all [Resp.isErr]

theorem updatePatient_frame (s : List Patient) (i : String)
    (b : PatientUpdateBody) (h : (updatePatient s i b).1.isErr = true) :
    (updatePatient s i b).2 = s := by
  unfold updatePatient at h ⊢
  split at h <;> simp_all [Resp.isErr]

theorem deletePatient_frame (s : List Patient) (i : String)
    (h : (deletePatient s i).1.isErr = true) : (deletePatient s i).2 = s := by
  unfold deletePatient at h ⊢
  split at h <;> simp_all [Resp.isErr]

theorem createProvider_frame (s : List Provider) (b : ProviderCreateBody)
    (h : (createProvider s b).1.isErr = true) : (createProvider s b).2 = s := by
  unfold createProvider at h ⊢
  split at h <;> simp_all [Resp.isErr]

theorem updateProvider_frame (s : List Provider) (i : String)
    (b : ProviderUpdateBody) (h : (updateProvider s i b).1.isErr = true) :
    (updateProvider s i b).2 = s := by
  unfold updateProvider at h ⊢
  split at h <;> simp_all [Resp.isErr]

theorem deleteProvider_frame (s : List Provider) (i : String)
    (h : (deleteProvider s i).1.isErr = true) : (deleteProvider s i).2 = s := by
  unfold deleteProvider at h ⊢
  split at h <;> simp_all [Resp.isErr]

theorem createAppointment_frame (ps : List Patient) (vs : List Provider)
    (s : List Appointment) (b : ApptCreateBody) :
    (createAppointment ps vs s b).1.isErr = true →
    (createAppointment ps vs s b).2 = s := by
  unfold createAppointment
  split
  · simp [Resp.isErr]
  split
  · simp [Resp.isErr]
  split
  · simp [Resp.isErr]
  · simp [Resp.isErr]

theorem updateAppointment_frame (ps : List Patient) (vs : List Provider)
    (s : List Appointment) (i : String) (b : ApptUpdateBody) :
    (updateAppointment ps vs s i b).1.isErr = true →
    (updateAppointment ps vs s i b).2 = s := by
  unfold updateAppointment
  split
  · simp [Resp.isErr]
  split
  · split
    · simp [Resp.isErr]
    · simp [Resp.isErr]
  · simp [Resp.isErr]

theorem deleteAppointment_frame (s : List Appointment) (i : String)
    (h : (deleteAppointment s i).1.isErr = true) :
    (deleteAppointment s i).2 = s := by
  unfold deleteAppointment at h ⊢
  split at h <;> simp_all [Resp.isErr]

theorem respP_isErr (r : Resp Patient) : (respP r).isErr = r.isErr := by
  cases r <;> rfl

theorem respV_isErr (r : Resp Provider) : (respV r).isErr = r.isErr := by
  cases r <;> rfl

theorem respA_isErr (r : Resp Appointment) : (respA r).isErr = r.isErr := by
  cases r <;> rfl

theorem respD_isErr (r : Resp Unit) : (respD r).isErr = r.isErr := by
  cases r <;> rfl

/-- Claim C5: every operation on every store is atomic — whenever a handler
answers an error response (InvalidInput, NotFound, PatientNotFound or
ProviderNotFound), all three stores are exactly as they were before the
operation; a mutation either fully applies or does not apply at all. -/
theorem mutation_error_atomicity (st : SysState) (op : Op)
    (h : (applyOp st op).1.isErr = true) : (applyOp st op).2 = st := by
  cases op with
  | patientList => rfl
  | patientGet i => rfl
  | patientCreate b =>
    simp only [applyOp, respP_isErr] at h
    simp [applyOp, createPatient_frame st.patients b h]
  | patientUpdate i b =>
    simp only [applyOp, respP_isErr] at h
    simp [applyOp, updatePatient_frame st.patients i b h]
  | patientDelete i =>
    simp only [applyOp, respD_isErr] at h
    simp [applyOp, deletePatient_frame st.patients i h]
  | providerList => rfl
  | providerGet i => rfl
  | providerCreate b =>
    simp only [applyOp, respV_isErr] at h
    simp [applyOp, createProvider_frame st.providers b h]
  | providerUpdate i b =>
    simp only [applyOp, respV_isErr] at h
    simp [applyOp, updateProvider_frame st.providers i b h]
  | providerDelete i =>
    simp only [applyOp, respD_isErr] at h
    simp [applyOp, deleteProvider_frame st.providers i h]
  | apptList => rfl
  | apptGet i => rfl
  | apptCreate b =>
    simp only [applyOp, respA_isErr] at h
    simp [applyOp,
      createAppointment_frame st.patients st.providers st.appointments b h]
  | apptUpdate i b =>
    simp only [applyOp, respA_isErr] at h
    simp [applyOp,
      updateAppointment_frame st.patients st.providers st.appointments i b h]
  | apptDelete i =>
    simp only [applyOp, respD_isErr] at h
    simp [applyOp, deleteAppointment_frame st.appointments i h]

/-- Witness for C5: creating an appointment for an unknown patient from the
seeded state errs and leaves the full state untouched. -/
theorem mutation_error_atomicity_witness :
    (applyOp seededSys
        (Op.apptCreate ⟨some "nope", some "prov1",
          some "2025-06-15T10:00:00Z", some "Check-up"⟩)).1.isErr = true ∧
    (applyOp seededSys
        (Op.apptCreate ⟨some "nope", some "prov1",
          some "2025-06-15T10:00:00Z", some "Check-up"⟩)).2 = seededSys :=
  ⟨by decide, mutation_error_atomicity seededSys
      (Op.apptCreate ⟨some "nope", some "prov1",
        some "2025-06-15T10:00:00Z", some "Check-up"⟩) (by decide)⟩

/-- Claim C2: an appointment-creation payload with all four fields present
(passing the handler's presence check) whose patientId matches no patient
fails with 400 PATIENT_NOT_FOUND — for every provider store and providerId,
so regardless of whether the providerId resolves — and the appointments
store is returned unchanged. -/
theorem appointment_create_unknown_patient_fails
    (pats : List Patient) (provs : List Provider) (appts : List Appointment)
    (pid prid d ty : String)
    (h1 : pid.isEmpty = false) (h2 : prid.isEmpty = false)
    (h3 : d.isEmpty = false) (h4 : ty.isEmpty = false)
    (h5 : pats.any (fun p => p.id == pid) = false) :
    createAppointment pats provs appts ⟨some pid, some prid, some d, some ty⟩ =
      (.err 400 .PATIENT_NOT_FOUND, appts) := by
  unfold createAppointment
  simp [blankS, h1, h2, h3, h4, h5]

/-- Witness for C2: the spec's concrete scenario 2 — patientId "nope" with
a valid providerId "prov1" — against the seeded stores. -/
theorem appointment_create_unknown_patient_fails_witness :
    ("nope".isEmpty = false) ∧
    (seededPatients.any (fun p => p.id == "nope") = false) ∧
    createAppointment seededPatients seededProviders seededAppointments
        ⟨some "nope", some "prov1", some "2025-06-15T10:00:00Z",
          some "Check-up"⟩ =
      (.err 400 .PATIENT_NOT_FOUND, seededAppointments) :=
  ⟨by decide, by decide,
    appointment_create_unknown_patient_fails seededPatients seededProviders
      seededAppointments "nope" "prov1" "2025-06-15T10:00:00Z" "Check-up"
      (by decide) (by decide) (by decide) (by decide) (by decide)⟩

/-- Claim C3: an appointment-creation payload with all four fields present
whose patientId and providerId both resolve succeeds with 201: the new
record gets id `"app" + (count+1)` with count the current store size,
status `"scheduled"`, and is appended to the appointments store. -/
theorem appointment_create_valid_succeeds
    (pats : List Patient) (provs : List Provider) (appts : List Appointment)
    (pid prid d ty : String)
    (h1 : pid.isEmpty = false) (h2 : prid.isEmpty = false)
    (h3 : d.isEmpty = false) (h4 : ty.isEmpty = false)
    (hp : pats.any (fun p => p.id == pid) = true)
    (hv : provs.any (fun pr => pr.id == prid) = true) :
    createAppointment pats provs appts ⟨some pid, some prid, some d, some ty⟩ =
      (.ok 201
        { id := "app" ++ toString (appts.length + 1), patientId := pid,
          providerId := prid, date := d, type := ty, status := "scheduled" },
       appts ++
        [{ id := "app" ++ toString (appts.length + 1), patientId := pid,
           providerId := prid, date := d, type := ty,
           status := "scheduled" }]) := by
  unfold createAppointment
  simp [blankS, h1, h2, h3, h4, hp, hv]

/-- Witness for C3: booking patient "pat1" with provider "prov1" on the
seeded stores yields the appended record "app3" with status "scheduled". -/
theorem appointment_create_valid_succeeds_witness :
    (seededPatients.any (fun p => p.id == "pat1") = true) ∧
    (seededProviders.any (fun pr => pr.id == "prov1") = true) ∧
    createAppointment seededPatients seededProviders seededAppointments
        ⟨some "pat1", some "prov1", some "2025-07-01T09:00:00Z",
          some "Check-up"⟩ =
      (.ok 201
        { id := "app" ++ toString (seededAppointments.length + 1),
          patientId := "pat1", providerId := "prov1",
          date := "2025-07-01T09:00:00Z", type := "Check-up",
          status := "scheduled" },
       seededAppointments ++
        [{ id := "app" ++ toString (seededAppointments.length + 1),
           patientId := "pat1", providerId := "prov1",
           date := "2025-07-01T09:00:00Z", type := "Check-up",
           status := "scheduled" }]) :=
  ⟨by decide, by decide,
    appointment_create_valid_succeeds seededPatients seededProviders
      seededAppointments "pat1" "prov1" "2025-07-01T09:00:00Z" "Check-up"
      (by decide) (by decide) (by decide) (by decide) (by decide) (by decide)⟩

/-- Claim C7: POST /patients signals 400 INVALID_INPUT when firstName,
lastName or dateOfBirth is missing (fails the handler's presence check),
leaving the store unchanged; otherwise it succeeds with 201, assigns id
`"pat" + (count+1)` from the current store size, stores contactNumber and
email as null when absent from the payload, and appends the record. -/
theorem patient_create_validation_and_success
    (store : List Patient) (body : PatientCreateBody) :
    ((blankS body.firstName || blankS body.lastName ||
        blankS body.dateOfBirth) = true →
      createPatient store body = (.err 400 .INVALID_INPUT, store)) ∧
    ((blankS body.firstName || blankS body.lastName ||
        blankS body.dateOfBirth) = false →
      ∃ p : Patient,
        createPatient store body = (.ok 201 p, store ++ [p]) ∧
        p.id = "pat" ++ toString (store.length + 1) ∧
        (body.contactNumber = none → p.contactNumber = none) ∧
        (body.email = none → p.email = none)) := by
  constructor
  · intro h
    unfold createPatient
    simp only [h]
    rfl
  · intro h
    unfold createPatient
    simp only [h, Bool.false_eq_true, if_false]
    exact ⟨_, rfl, rfl,
      fun hc => by simp [hc, orNull], fun hc => by simp [hc, orNull]⟩

/-- Witness for C7: the spec's concrete scenario 1 — Alice Smith with no
contact fields — creates record "pat3" with null contactNumber and email. -/
theorem patient_create_validation_and_success_witness :
    ((blankS (some "Alice") || blankS (some "Smith") ||
        blankS (some "1990-01-01")) = false) ∧
    (∃ p : Patient,
      createPatient seededPatients
          ⟨some "Alice", some "Smith", some "1990-01-01", none, none⟩ =
        (.ok 201 p, seededPatients ++ [p]) ∧
      p.id = "pat" ++ toString (seededPatients.length + 1) ∧
      ((some "Alice" : Option String) = none → p.contactNumber = none) ∧
      ((some "Alice" : Option String) = none → p.email = none)) := by
  refine ⟨by decide, ?_⟩
  have h := (patient_create_validation_and_success seededPatients
    ⟨some "Alice", some "Smith", some "1990-01-01", none, none⟩).2 (by decide)
  obtain ⟨p, h1, h2, h3, h4⟩ := h
  exact ⟨p, h1, h2, fun hc => h3 rfl, fun hc => h4 rfl⟩

/-- Claim C4: updating an existing appointment re-validates patientId
exactly when it is supplied (400 PATIENT_NOT_FOUND when it does not
resolve), likewise providerId (400 PROVIDER_NOT_FOUND); an omitted
reference passes vacuously; and when both supplied references resolve the
update succeeds for every date, type and status value — those fields are
accepted without any validation. -/
theorem appointment_update_reference_validation
    (pats : List Patient) (provs : List Provider)
    (b t : List Appointment) (x : Appointment) (aid : String)
    (body : ApptUpdateBody)
    (hb : ∀ y ∈ b, y.id ≠ aid) (hx : x.id = aid) :
    (patientRefOK pats none = true ∧ providerRefOK provs none = true) ∧
    (patientRefOK pats body.patientId = false →
      updateAppointment pats provs (b ++ x :: t) aid body =
        (.err 400 .PATIENT_NOT_FOUND, b ++ x :: t)) ∧
    (patientRefOK pats body.patientId = true →
      providerRefOK provs body.providerId = false →
      updateAppointment pats provs (b ++ x :: t) aid body =
        (.err 400 .PROVIDER_NOT_FOUND, b ++ x :: t)) ∧
    (patientRefOK pats body.patientId = true →
      providerRefOK provs body.providerId = true →
      updateAppointment pats provs (b ++ x :: t) aid body =
        (.ok 200 (mergeAppointment body x),
         b ++ mergeAppointment body x :: t)) := by
  have hb' : ∀ y ∈ b, (y.id == aid) = false := fun y hy => by
    simp [hb y hy]
  have hx' : (x.id == aid) = true := by simp [hx]
  have hu := updateFirst_append (mergeAppointment body)
    (fun a => a.id == aid) b x t hb' hx'
  refine ⟨⟨rfl, rfl⟩, ?_, ?_, ?_⟩
  · intro hp
    unfold updateAppointment
    simp [hu, hp]
  · intro hp hv
    unfold updateAppointment
    simp [hu, hp, hv]
  · intro hp hv
    unfold updateAppointment
    simp [hu, hp, hv]

/-- Witness for C4: updating seeded appointment "app1" — a supplied bad
patientId errs, a supplied bad providerId errs after a good patientId, and
a payload with resolving references and arbitrary status "no-show"
succeeds with the merged record. -/
theorem appointment_update_reference_validation_witness :
    (∀ y ∈ ([] : List Appointment), y.id ≠ "app1") ∧
    (patientRefOK seededPatients
        (some "ghost") = false →
      updateAppointment seededPatients seededProviders
          ([] ++ (seededAppointments.get ⟨0, by decide⟩) ::
            [seededAppointments.get ⟨1, by decide⟩]) "app1"
          ⟨none, some "ghost", none, none, none, some "no-show"⟩ =
        (.err 400 .PATIENT_NOT_FOUND,
         [] ++ (seededAppointments.get ⟨0, by decide⟩) ::
           [seededAppointments.get ⟨1, by decide⟩])) :=
  ⟨fun y hy => absurd hy (List.not_mem_nil y),
    (appointment_update_reference_validation seededPatients seededProviders
      [] [seededAppointments.get ⟨1, by decide⟩]
      (seededAppointments.get ⟨0, by decide⟩) "app1"
      ⟨none, some "ghost", none, none, none, some "no-show"⟩
      (fun y hy => absurd hy (List.not_mem_nil y)) (by decide)).2.1⟩

/-- Claim C6: for every store and every existing record id, the update
replaces the first matching record by the spread merge and returns the
merged record; every field absent from the payload keeps its previous
value, and the empty payload `{}` returns the record unchanged and leaves
the store identical (for appointments, with the supplied-reference guards
of the handler passing, which the empty payload does vacuously). -/
theorem update_shallow_merge_preserves_fields
    (bp tp : List Patient) (xp : Patient) (ip : String)
    (bv tv : List Provider) (xv : Provider) (iv : String)
    (pats : List Patient) (provs : List Provider)
    (ba ta : List Appointment) (xa : Appointment) (ia : String)
    (hbp : ∀ y ∈ bp, y.id ≠ ip) (hxp : xp.id = ip)
    (hbv : ∀ y ∈ bv, y.id ≠ iv) (hxv : xv.id = iv)
    (hba : ∀ y ∈ ba, y.id ≠ ia) (hxa : xa.id = ia) :
    ((∀ body, updatePatient (bp ++ xp :: tp) ip body =
        (.ok 200 (mergePatient body xp), bp ++ mergePatient body xp :: tp)) ∧
      updatePatient (bp ++ xp :: tp) ip emptyPatientBody =
        (.ok 200 xp, bp ++ xp :: tp) ∧
      (∀ (body : PatientUpdateBody) (p : Patient),
        (body.id = none → (mergePatient body p).id = p.id) ∧
        (body.firstName = none →
          (mergePatient body p).firstName = p.firstName) ∧
        (body.lastName = none → (mergePatient body p).lastName = p.lastName) ∧
        (body.dateOfBirth = none →
          (mergePatient body p).dateOfBirth = p.dateOfBirth) ∧
        (body.contactNumber = none →
          (mergePatient body p).contactNumber = p.contactNumber) ∧
        (body.email = none → (mergePatient body p).email = p.email))) ∧
    ((∀ body, updateProvider (bv ++ xv :: tv) iv body =
        (.ok 200 (mergeProvider body xv), bv ++ mergeProvider body xv :: tv)) ∧
      updateProvider (bv ++ xv :: tv) iv emptyProviderBody =
        (.ok 200 xv, bv ++ xv :: tv) ∧
      (∀ (body : ProviderUpdateBody) (p : Provider),
        (body.id = none → (mergeProvider body p).id = p.id) ∧
        (body.firstName = none →
          (mergeProvider body p).firstName = p.firstName) ∧
        (body.lastName = none →
          (mergeProvider body p).lastName = p.lastName) ∧
        (body.specialty = none →
          (mergeProvider body p).specialty = p.specialty) ∧
        (body.contactNumber = none →
          (mergeProvider body p).contactNumber = p.contactNumber) ∧
        (body.email = none → (mergeProvider body p).email = p.email))) ∧
    ((∀ body, patientRefOK pats body.patientId = true →
        providerRefOK provs body.providerId = true →
        updateAppointment pats provs (ba ++ xa :: ta) ia body =
          (.ok 200 (mergeAppointment body xa),
           ba ++ mergeAppointment body xa :: ta)) ∧
      updateAppointment pats provs (ba ++ xa :: ta) ia emptyApptBody =
        (.ok 200 xa, ba ++ xa :: ta) ∧
      (∀ (body : ApptUpdateBody) (a : Appointment),
        (body.id = none → (mergeAppointment body a).id = a.id) ∧
        (body.patientId = none →
          (mergeAppointment body a).patientId = a.patientId) ∧
        (body.providerId = none →
          (mergeAppointment body a).providerId = a.providerId) ∧
        (body.date = none → (mergeAppointment body a).date = a.date) ∧
        (body.type = none → (mergeAppointment body a).type = a.type) ∧
        (body.status = none →
          (mergeAppointment body a).status = a.status))) := by
  have hbp' : ∀ y ∈ bp, (y.id == ip) = false := fun y hy => by
    simp [hbp y hy]
  have hxp' : (xp.id == ip) = true := by simp [hxp]
  have hbv' : ∀ y ∈ bv, (y.id == iv) = false := fun y hy => by
    simp [hbv y hy]
  have hxv' : (xv.id == iv) = true := by simp [hxv]
  have hba' : ∀ y ∈ ba, (y.id == ia) = false := fun y hy => by
    simp [hba y hy]
  have hxa' : (xa.id == ia) = true := by simp [hxa]
  refine ⟨⟨?_, ?_, ?_⟩, ⟨?_, ?_, ?_⟩, ⟨?_, ?_, ?_⟩⟩
  · intro body
    unfold updatePatient
    rw [updateFirst_append (mergePatient body) (fun p => p.id == ip)
      bp xp tp hbp' hxp']
  · unfold updatePatient
    rw [updateFirst_append (mergePatient emptyPatientBody)
      (fun p => p.id == ip) bp xp tp hbp' hxp']
    rfl
  · intro body p
    refine ⟨fun h => ?_, fun h => ?_, fun h => ?_, fun h => ?_,
      fun h => ?_, fun h => ?_⟩ <;> simp [mergePatient, h]
  · intro body
    unfold updateProvider
    rw [updateFirst_append (mergeProvider body) (fun p => p.id == iv)
      bv xv tv hbv' hxv']
  · unfold updateProvider
    rw [updateFirst_append (mergeProvider emptyProviderBody)
      (fun p => p.id == iv) bv xv tv hbv' hxv']
    rfl
  · intro body p
    refine ⟨fun h => ?_, fun h => ?_, fun h => ?_, fun h => ?_,
      fun h => ?_, fun h => ?_⟩ <;> simp [mergeProvider, h]
  · intro body h1 h2
    unfold updateAppointment
    rw [updateFirst_append (mergeAppointment body) (fun a => a.id == ia)
      ba xa ta hba' hxa']
    simp [h1, h2]
  · unfold updateAppointment
    rw [updateFirst_append (mergeAppointment emptyApptBody)
      (fun a => a.id == ia) ba xa ta hba' hxa']
    rfl
  · intro body a
    refine ⟨fun h => ?_, fun h => ?_, fun h => ?_, fun h => ?_,
      fun h => ?_, fun h => ?_⟩ <;> simp [mergeAppointment, h]

/-- Witness for C6: updating the seeded first patient "pat1" with the
empty payload answers 200 with the record unchanged and the identical
store. -/
theorem update_shallow_merge_preserves_fields_witness :
    updatePatient ([] ++ (seededPatients.get ⟨0, by decide⟩) ::
        [seededPatients.get ⟨1, by decide⟩]) "pat1" emptyPatientBody =
      (.ok 200 (seededPatients.get ⟨0, by decide⟩),
       [] ++ (seededPatients.get ⟨0, by decide⟩) ::
         [seededPatients.get ⟨1, by decide⟩]) :=
  (update_shallow_merge_preserves_fields
    [] [seededPatients.get ⟨1, by decide⟩] (seededPatients.get ⟨0, by decide⟩)
    "pat1"
    [] [seededProviders.get ⟨1, by decide⟩] (seededProviders.get ⟨0, by decide⟩)
    "prov1" seededPatients seededProviders
    [] [seededAppointments.get ⟨1, by decide⟩]
    (seededAppointments.get ⟨0, by decide⟩) "app1"
    (fun y hy => absurd hy (List.not_mem_nil y)) (by decide)
    (fun y hy => absurd hy (List.not_mem_nil y)) (by decide)
    (fun y hy => absurd hy (List.not_mem_nil y)) (by decide)).1.2.1

/-- Claim C9: the identifier field is not protected from mutation — an
update payload carrying an `id` key overwrites the stored identifier with
the supplied value (any value, one duplicating another record's id
included), in all three stores, because the spread copies the whole
request body over the record. -/
theorem update_overwrites_id_field
    (bp tp : List Patient) (xp : Patient) (ip : String)
    (bv tv : List Provider) (xv : Provider) (iv : String)
    (pats : List Patient) (provs : List Provider)
    (ba ta : List Appointment) (xa : Appointment) (ia : String)
    (hbp : ∀ y ∈ bp, y.id ≠ ip) (hxp : xp.id = ip)
    (hbv : ∀ y ∈ bv, y.id ≠ iv) (hxv : xv.id = iv)
    (hba : ∀ y ∈ ba, y.id ≠ ia) (hxa : xa.id = ia) :
    (∀ (body : PatientUpdateBody) (j : String), body.id = some j →
      updatePatient (bp ++ xp :: tp) ip body =
        (.ok 200 (mergePatient body xp), bp ++ mergePatient body xp :: tp) ∧
      (mergePatient body xp).id = j) ∧
    (∀ (body : ProviderUpdateBody) (j : String), body.id = some j →
      updateProvider (bv ++ xv :: tv) iv body =
        (.ok 200 (mergeProvider body xv), bv ++ mergeProvider body xv :: tv) ∧
      (mergeProvider body xv).id = j) ∧
    (∀ (body : ApptUpdateBody) (j : String), body.id = some j →
      patientRefOK pats body.patientId = true →
      providerRefOK provs body.providerId = true →
      updateAppointment pats provs (ba ++ xa :: ta) ia body =
        (.ok 200 (mergeAppointment body xa),
         ba ++ mergeAppointment body xa :: ta) ∧
      (mergeAppointment body xa).id = j) := by
  have hbp' : ∀ y ∈ bp, (y.id == ip) = false := fun y hy => by
    simp [hbp y hy]
  have hxp' : (xp.id == ip) = true := by simp [hxp]
  have hbv' : ∀ y ∈ bv, (y.id == iv) = false := fun y hy => by
    simp [hbv y hy]
  have hxv' : (xv.id == iv) = true := by simp [hxv]
  have hba' : ∀ y ∈ ba, (y.id == ia) = false := fun y hy => by
    simp [hba y hy]
  have hxa' : (xa.id == ia) = true := by simp [hxa]
  refine ⟨?_, ?_, ?_⟩
  · intro body j hj
    constructor
    · unfold updatePatient
      rw [updateFirst_append (mergePatient body) (fun p => p.id == ip)
        bp xp tp hbp' hxp']
    · simp [mergePatient, hj]
  · intro body j hj
    constructor
    · unfold updateProvider
      rw [updateFirst_append (mergeProvider body) (fun p => p.id == iv)
        bv xv tv hbv' hxv']
    · simp [mergeProvider, hj]
  · intro body j hj h1 h2
    constructor
    · unfold updateAppointment
      rw [updateFirst_append (mergeAppointment body) (fun a => a.id == ia)
        ba xa ta hba' hxa']
      simp [h1, h2]
    · simp [mergeAppointment, hj]

/-- Witness for C9: updating seeded patient "pat1" with payload
`{id: "pat2"}` succeeds and stores a record whose identifier is "pat2",
duplicating the other seeded patient's identifier. -/
theorem update_overwrites_id_field_witness :
    updatePatient ([] ++ (seededPatients.get ⟨0, by decide⟩) ::
        [seededPatients.get ⟨1, by decide⟩]) "pat1"
        ⟨some "pat2", none, none, none, none, none⟩ =
      (.ok 200 (mergePatient ⟨some "pat2", none, none, none, none, none⟩
          (seededPatients.get ⟨0, by decide⟩)),
       [] ++ mergePatient ⟨some "pat2", none, none, none, none, none⟩
          (seededPatients.get ⟨0, by decide⟩) ::
         [seededPatients.get ⟨1, by decide⟩]) ∧
    (mergePatient ⟨some "pat2", none, none, none, none, none⟩
        (seededPatients.get ⟨0, by decide⟩)).id = "pat2" :=
  (update_overwrites_id_field
    [] [seededPatients.get ⟨1, by decide⟩] (seededPatients.get ⟨0, by decide⟩)
    "pat1"
    [] [seededProviders.get ⟨1, by decide⟩] (seededProviders.get ⟨0, by decide⟩)
    "prov1" seededPatients seededProviders
    [] [seededAppointments.get ⟨1, by decide⟩]
    (seededAppointments.get ⟨0, by decide⟩) "app1"
    (fun y hy => absurd hy (List.not_mem_nil y)) (by decide)
    (fun y hy => absurd hy (List.not_mem_nil y)) (by decide)
    (fun y hy => absurd hy (List.not_mem_nil y)) (by decide)).1
    ⟨some "pat2", none, none, none, none, none⟩ "pat2" rfl

/-- Claim C10: deleting an existing identifier removes exactly the first
record in insertion order whose id matches, answers 204, decreases the
store length by one, and keeps all other records in their previous
relative order — so a second record sharing the identifier survives the
delete. -/
theorem delete_removes_first_match_only
    (bp tp : List Patient) (xp : Patient) (ip : String)
    (bv tv : List Provider) (xv : Provider) (iv : String)
    (ba ta : List Appointment) (xa : Appointment) (ia : String)
    (hbp : ∀ y ∈ bp, y.id ≠ ip) (hxp : xp.id = ip)
    (hbv : ∀ y ∈ bv, y.id ≠ iv) (hxv : xv.id = iv)
    (hba : ∀ y ∈ ba, y.id ≠ ia) (hxa : xa.id = ia) :
    (deletePatient (bp ++ xp :: tp) ip = (.ok 204 (), bp ++ tp) ∧
      (bp ++ tp).length + 1 = (bp ++ xp :: tp).length ∧
      ∀ y ∈ tp, y.id = ip → y ∈ bp ++ tp) ∧
    (deleteProvider (bv ++ xv :: tv) iv = (.ok 204 (), bv ++ tv) ∧
      (bv ++ tv).length + 1 = (bv ++ xv :: tv).length ∧
      ∀ y ∈ tv, y.id = iv → y ∈ bv ++ tv) ∧
    (deleteAppointment (ba ++ xa :: ta) ia = (.ok 204 (), ba ++ ta) ∧
      (ba ++ ta).length + 1 = (ba ++ xa :: ta).length ∧
      ∀ y ∈ ta, y.id = ia → y ∈ ba ++ ta) := by
  have hbp' : ∀ y ∈ bp, (y.id == ip) = false := fun y hy => by
    simp [hbp y hy]
  have hxp' : (xp.id == ip) = true := by simp [hxp]
  have hbv' : ∀ y ∈ bv, (y.id == iv) = false := fun y hy => by
    simp [hbv y hy]
  have hxv' : (xv.id == iv) = true := by simp [hxv]
  have hba' : ∀ y ∈ ba, (y.id == ia) = false := fun y hy => by
    simp [hba y hy]
  have hxa' : (xa.id == ia) = true := by simp [hxa]
  refine ⟨⟨?_, by simp; omega, ?_⟩, ⟨?_, by simp; omega, ?_⟩,
    ⟨?_, by simp; omega, ?_⟩⟩
  · unfold deletePatient
    rw [removeFirst_append (fun p => p.id == ip) bp xp tp hbp' hxp']
  · intro y hy _
    exact List.mem_append_right bp hy
  · unfold deleteProvider
    rw [removeFirst_append (fun p => p.id == iv) bv xv tv hbv' hxv']
  · intro y hy _
    exact List.mem_append_right bv hy
  · unfold deleteAppointment
    rw [removeFirst_append (fun a => a.id == ia) ba xa ta hba' hxa']
  · intro y hy _
    exact List.mem_append_right ba hy

/-- Witness for C10: deleting "pat1" from the seeded patients store
answers 204 and leaves exactly the second seeded record. -/
theorem delete_removes_first_match_only_witness :
    deletePatient ([] ++ (seededPatients.get ⟨0, by decide⟩) ::
        [seededPatients.get ⟨1, by decide⟩]) "pat1" =
      (.ok 204 (), [] ++ [seededPatients.get ⟨1, by decide⟩]) :=
  (delete_removes_first_match_only
    [] [seededPatients.get ⟨1, by decide⟩] (seededPatients.get ⟨0, by decide⟩)
    "pat1"
    [] [seededProviders.get ⟨1, by decide⟩] (seededProviders.get ⟨0, by decide⟩)
    "prov1"
    [] [seededAppointments.get ⟨1, by decide⟩]
    (seededAppointments.get ⟨0, by decide⟩) "app1"
    (fun y hy => absurd hy (List.not_mem_nil y)) (by decide)
    (fun y hy => absurd hy (List.not_mem_nil y)) (by decide)
    (fun y hy => absurd hy (List.not_mem_nil y)) (by decide)).1.1

theorem removeFirst_of_countP_one (f : α → Bool) (l : List α)
    (h : l.countP f = 1) :
    ∃ l', removeFirst f l = some l' ∧ removeFirst f l' = none := by
  cases hr : removeFirst f l with
  | none =>
    rw [removeFirst_eq_none_iff] at hr
    omega
  | some l' =>
    refine ⟨l', rfl, ?_⟩
    rw [removeFirst_eq_none_iff]
    have := removeFirst_countP f l l' hr
    omega

/-- Counterexample to claim C8 as stated over every reachable state: a
state with two records sharing an identifier is reachable from the seeded
store (delete "pat1", then create a patient, which is assigned the already
taken id "pat2"); deleting "pat2" twice in succession there answers 204
both times, not 404 on the second call. -/
theorem delete_twice_duplicate_id_both_204 :
    ((createPatient (deletePatient seededPatients "pat1").2
        ⟨some "Alice", some "Smith", some "1990-01-01", none, none⟩).2.countP
        (fun p => p.id == "pat2") = 2) ∧
    (deletePatient
        (createPatient (deletePatient seededPatients "pat1").2
          ⟨some "Alice", some "Smith", some "1990-01-01", none, none⟩).2
        "pat2").1 = .ok 204 () ∧
    (deletePatient
        (deletePatient
          (createPatient (deletePatient seededPatients "pat1").2
            ⟨some "Alice", some "Smith", some "1990-01-01", none, none⟩).2
          "pat2").2
        "pat2").1 = .ok 204 () := by decide

/-- Claim C8 (amended): for every store, in any state where the identifier
matches exactly one record — in particular whenever identifiers are
pairwise distinct — deleting that identifier twice in succession answers
204 on the first call and 404 with the resource-specific not-found code on
the second. -/
theorem delete_twice_unique_id (sp : List Patient) (ip : String)
    (sv : List Provider) (iv : String)
    (sa : List Appointment) (ia : String) :
    (sp.countP (fun p => p.id == ip) = 1 →
      ∃ s', deletePatient sp ip = (.ok 204 (), s') ∧
        (deletePatient s' ip).1 = .err 404 .PATIENT_NOT_FOUND) ∧
    (sv.countP (fun p => p.id == iv) = 1 →
      ∃ s', deleteProvider sv iv = (.ok 204 (), s') ∧
        (deleteProvider s' iv).1 = .err 404 .PROVIDER_NOT_FOUND) ∧
    (sa.countP (fun a => a.id == ia) = 1 →
      ∃ s', deleteAppointment sa ia = (.ok 204 (), s') ∧
        (deleteAppointment s' ia).1 = .err 404 .APPOINTMENT_NOT_FOUND) := by
  refine ⟨?_, ?_, ?_⟩
  · intro h
    obtain ⟨l', h1, h2⟩ := removeFirst_of_countP_one _ _ h
    exact ⟨l', by simp [deletePatient, h1], by simp [deletePatient, h2]⟩
  · intro h
    obtain ⟨l', h1, h2⟩ := removeFirst_of_countP_one _ _ h
    exact ⟨l', by simp [deleteProvider, h1], by simp [deleteProvider, h2]⟩
  · intro h
    obtain ⟨l', h1, h2⟩ := removeFirst_of_countP_one _ _ h
    exact ⟨l', by simp [deleteAppointment, h1], by simp [deleteAppointment, h2]⟩

/-- Witness for the amended C8: the seeded patients store holds exactly one
record with id "pat1"; deleting it twice answers 204 then 404. -/
theorem delete_twice_unique_id_witness :
    (seededPatients.countP (fun p => p.id == "pat1") = 1) ∧
    ∃ s', deletePatient seededPatients "pat1" = (.ok 204 (), s') ∧
      (deletePatient s' "pat1").1 = .err 404 .PATIENT_NOT_FOUND :=
  ⟨by decide,
    (delete_twice_unique_id seededPatients "pat1" seededProviders "prov1"
      seededAppointments "app1").1 (by decide)⟩

/-- Claim C1 fails on the code (the spec's §9 documents the scheme as
buggy): starting from the seeded patients store, deleting "pat1" leaves a
store of size 1 still holding id "pat2"; the next creation derives its
identifier from the store size and assigns "pat2" again, so the store then
holds two records with the same identifier. -/
theorem patient_id_collision_after_delete :
    ((deletePatient seededPatients "pat1").2.countP
        (fun p => p.id == "pat2") = 1) ∧
    (createPatient (deletePatient seededPatients "pat1").2
        ⟨some "Alice", some "Smith", some "1990-01-01", none, none⟩).1 =
      .ok 201
        { id := "pat2", firstName := "Alice", lastName := "Smith",
          dateOfBirth := "1990-01-01", contactNumber := none,
          email := none } ∧
    ((createPatient (deletePatient seededPatients "pat1").2
        ⟨some "Alice", some "Smith", some "1990-01-01", none, none⟩).2.countP
        (fun p => p.id == "pat2") = 2) := by decide

end Relatient
